import Mathlib

/-!
Shallow embedding of the pypacker core (src/pypacker/pypacker.py and
src/pypacker/layer3/ip6.py) used to check the natural-language specification.

Conventions:
* Python byte strings are `List Nat` (each element a byte value).
* Python `None` is `Option.none`; a Python attribute that may be entirely
  unset (never assigned on the instance nor on the class) is also modelled
  with `Option`, where `none` means "attribute missing" and reading it is an
  `AttributeError`.
* Fallible Python code returns `Except PyErr`.
-/

/-- Exception classes of pypacker (pypacker.py:20-23) together with the Python
builtin exceptions that the embedded code can raise. `errorPy` is pypacker's
base class `Error`; `loopLimit` is an artificial constructor used to totalise
unbounded `while` loops with fuel (always supplied fuel larger than the
possible number of iterations). -/
inductive PyErr where
  | needData              -- class NeedData(UnpackError)
  | unpackError           -- class UnpackError(Error)
  | packError             -- class PackError(Error): defined but never raised in src
  | errorPy               -- class Error(Exception)
  | structError           -- struct.error
  | attributeError        -- builtin AttributeError
  | typeError             -- builtin TypeError
  | assertionError        -- builtin AssertionError
  | indexError            -- builtin IndexError
  | notImplementedError   -- builtin NotImplementedError
  | loopLimit             -- artificial fuel-exhaustion marker, see docstring
  deriving DecidableEq

/-! ### Internet checksum (pypacker.py:749-771, pure-python fallback branch)

`in_cksum_add` slices the buffer into native-endian 16-bit words
(`array.array('H', buf[:cnt])`, host little-endian), appends the trailing odd
byte padded with a zero byte, and adds the word sum to the running sum.
`in_cksum_done` folds the carries, complements to 16 bits (`~s & 0xffff`) and
byte-swaps the result (`socket.ntohs` on a little-endian host). -/

/-- One little-endian 16-bit word as decoded by `array.array('H', ...)` on a
little-endian host: low byte first. -/
def word16 (lo hi : Nat) : Nat := lo + 256 * hi

/-- The 16-bit word list of a buffer: even prefix two bytes at a time, a
trailing odd byte is padded with `b"\x00"` (pypacker.py:758-759). -/
def cksumWords : List Nat → List Nat
  | [] => []
  | [b] => [word16 b 0]
  | b0 :: b1 :: rest => word16 b0 b1 :: cksumWords rest

/-- `in_cksum_add(s, buf)` (pypacker.py:749-761): running sum plus the sum of
the buffer's 16-bit words. -/
def in_cksum_add (s : Nat) (buf : List Nat) : Nat := s + (cksumWords buf).sum

/-- `socket.ntohs` on a little-endian host: swap the two bytes of a 16-bit
value. -/
def ntohs16 (x : Nat) : Nat := x % 256 * 256 + x / 256 % 256

/-- `in_cksum_done(s)` (pypacker.py:762-767): fold the carry into the low
16 bits twice, complement (`~s & 0xffff` evaluates to `65535 - s % 65536` for
nonnegative `s`) and convert through `ntohs`. -/
def in_cksum_done (s : Nat) : Nat :=
  let s1 := s / 65536 + s % 65536
  let s2 := s1 + s1 / 65536
  ntohs16 (65535 - s2 % 65536)

/-- `in_cksum(buf)` (pypacker.py:769-771). -/
def in_cksum (buf : List Nat) : Nat := in_cksum_done (in_cksum_add 0 buf)

/-! ### IPv6 extension-header chain (src/pypacker/layer3/ip6.py)

`ip6.py` imports the numeric protocol identifiers from
`pypacker/layer3/ip_shared.py`, which is not under src/. -/

/-- Modelled from the spec: `IP_PROTO_HOPOPTS` from the missing
`pypacker/layer3/ip_shared.py`; standard RFC-assigned value. The claims depend
only on which codes belong to the extension set, not on the numbers. -/
def IP_PROTO_HOPOPTS : Nat := 0

/-- Modelled from the spec: `IP_PROTO_ROUTING` from the missing
`pypacker/layer3/ip_shared.py`; standard RFC-assigned value. -/
def IP_PROTO_ROUTING : Nat := 43

/-- Modelled from the spec: `IP_PROTO_FRAGMENT` from the missing
`pypacker/layer3/ip_shared.py`; standard RFC-assigned value. -/
def IP_PROTO_FRAGMENT : Nat := 44

/-- Modelled from the spec: `IP_PROTO_AH` from the missing
`pypacker/layer3/ip_shared.py`; standard RFC-assigned value. -/
def IP_PROTO_AH : Nat := 51

/-- Modelled from the spec: `IP_PROTO_ESP` from the missing
`pypacker/layer3/ip_shared.py`; standard RFC-assigned value. -/
def IP_PROTO_ESP : Nat := 50

/-- Modelled from the spec: `IP_PROTO_DSTOPTS` from the missing
`pypacker/layer3/ip_shared.py`; standard RFC-assigned value. -/
def IP_PROTO_DSTOPTS : Nat := 60

/-- Modelled from the spec: `IP_PROTO_TCP` (a terminal, non-extension upper
layer protocol id) from the missing `ip_shared.py`; standard value. -/
def IP_PROTO_TCP : Nat := 6

/-- The registry-known extension-type set `ext_hdrs` (ip6.py:19-29). -/
def ext_hdrs : List Nat :=
  [IP_PROTO_HOPOPTS, IP_PROTO_ROUTING, IP_PROTO_FRAGMENT,
   IP_PROTO_AH, IP_PROTO_ESP, IP_PROTO_DSTOPTS]

/-- Construction of one extension sub-header from its buffer slice,
`ext_hdrs_cls[type_nxt](buf[off:off+len])` (ip6.py:71, ip6.py:233-243):
`Packet.__init__` first rejects an empty slice with `NeedData`
(pypacker.py:203-204); the sub-decoder of `IP6ESPHeader` raises
`NotImplementedError` (ip6.py:224-226, the spec's `UnsupportedExtension`).
Modelled from the spec for the remaining registered types: their type-specific
sub-decoders succeed on their slice; their decoded field contents do not
influence the chain walk, whose offsets come only from the length-indicator
byte (spec 4.3). -/
def decodeExt (t : Nat) (slice : List Nat) : Except PyErr Unit :=
  if slice.length = 0 then .error .needData
  else if t = IP_PROTO_ESP then .error .notImplementedError
  else .ok ()

/-- One decoded extension sub-header of the chain: its type code, the offset
of its first byte in the full buffer, and the number of bytes it consumed. -/
structure ExtEntry where
  typ : Nat
  off : Nat
  len : Nat
  deriving DecidableEq

/-- The `while type_nxt in ext_hdrs` loop of `IP6._dissect` (ip6.py:68-74),
totalised with fuel (the loop either leaves the extension set, raises, or
eventually indexes past the buffer, since every iteration needs
`off + 1 < buf.length` and advances `off` by at least 8; callers pass
`buf.length + 1` fuel, which can never be exhausted). Per iteration:
`len = 8 + buf[off + 1] * 8`; the sub-header is constructed from
`buf[off : off + len]`; the next type code is read from `buf[off]` (the
sub-header's own first byte, its next-header field, read before `off` is
advanced); then `off += len`. Returns the decoded entries, the terminal
(non-extension) type code and the final offset. -/
def chainParseF (fuel : Nat) (buf : List Nat) (typeNxt off : Nat) :
    Except PyErr (List ExtEntry × Nat × Nat) :=
  match fuel with
  | 0 => .error .loopLimit
  | fuel + 1 =>
    if typeNxt ∈ ext_hdrs then
      match buf[off + 1]? with
      | none => .error .indexError
      | some ind =>
        let len := 8 + ind * 8
        match decodeExt typeNxt ((buf.drop off).take len) with
        | .error e => .error e
        | .ok _ =>
          match buf[off]? with
          | none => .error .indexError
          | some t2 =>
            match chainParseF fuel buf t2 (off + len) with
            | .error e => .error e
            | .ok (rest, tEnd, offEnd) =>
              .ok (⟨typeNxt, off, len⟩ :: rest, tEnd, offEnd)
    else .ok ([], typeNxt, off)

/-- The chain loop as run by `IP6._dissect`, with sufficient fuel. -/
def chainParse (buf : List Nat) (typeNxt off : Nat) :
    Except PyErr (List ExtEntry × Nat × Nat) :=
  chainParseF (buf.length + 1) buf typeNxt off

/-- The IP6 fixed-header format `("I","H","B","B","16s","16s")`
(ip6.py:32-40); the `opts` field has format `None` and contributes no bytes. -/
def ip6FmtWidths : List Nat := [4, 2, 1, 1, 16, 16]

/-- `self._hdr_len` of IP6: the fixed 40-byte header length. -/
def ip6HdrLen : Nat := ip6FmtWidths.sum

/-- `IP6._dissect(buf)` (ip6.py:61-78) restricted to its chain effect: seed the
type cursor from `buf[6]` (the `nxt` field) and the offset at the end of the
40-byte fixed header, then run the chain loop. The terminal type and offset
are what `_dissect` hands to the handler registry. -/
def ip6Dissect (buf : List Nat) : Except PyErr (List ExtEntry × Nat × Nat) :=
  match buf[6]? with
  | none => .error .indexError
  | some t0 => chainParse buf t0 ip6HdrLen

/-- The contents of `self.opts` after `IP6._dissect`: the local `opts` list is
applied in one step by `self.opts.extend(opts)` (ip6.py:76) only after the
loop has finished; an exception inside the loop propagates and leaves
`self.opts` untouched (empty). -/
def ip6OptsAfter (buf : List Nat) : List ExtEntry :=
  match ip6Dissect buf with
  | .ok (es, _, _) => es
  | .error _ => []

/-- Specification of how consecutive chain entries occupy the buffer: each
entry starts exactly where the previous one ended and the final offset is the
end of the last entry. -/
inductive ChainedOffsets : Nat → List ExtEntry → Nat → Prop where
  | nil : ∀ off, ChainedOffsets off [] off
  | cons : ∀ off e rest offEnd, e.off = off →
      ChainedOffsets (off + e.len) rest offEnd →
      ChainedOffsets off (e :: rest) offEnd

/-! ### Generic packet engine (src/pypacker/pypacker.py, class Packet)

A `GPacket` is the state of one layer instance: its header-field values in
schema order, the list of field names whose value is not `None`
(`__hdr_fields_not_none__`), the current format string (`__hdr_fmtstr__`, one
token per not-None field for static headers), the raw body `data`, the nested
body handler (`bodytypename`/handler attribute collapsed into one optional
nested packet), the header cache `_header_cached`, and `packet_changed`.

`packet_changed` is `Option Bool` because the attribute can be entirely unset:
the metaclass initialises `header_changed`/`data_changed` (pypacker.py:74-75)
but the `packet_changed` initialisation is commented out (pypacker.py:73),
while the rest of the engine reads and writes `self.packet_changed`
(pypacker.py:253, 265, 477, 486, 502). Reading it while unset is an
`AttributeError`. -/

/-- One token of a struct format string: an unsigned big-endian integer of the
given byte width (`"B"`, `"H"`, `"I"`, ...) or a fixed-width byte string
(`"Ns"`). The default byte order `'>'` (pypacker.py:49) is big-endian. -/
inductive FmtTok where
  | num (width : Nat)
  | str (width : Nat)
  deriving DecidableEq

/-- Byte width of a format token. -/
def FmtTok.width : FmtTok → Nat
  | .num w => w
  | .str w => w

/-- `struct.calcsize` of a format string. -/
def calcsize (fmt : List FmtTok) : Nat := (fmt.map FmtTok.width).sum

/-- The current value of one header field. Python stores untyped values in one
slot; the engine dispatches on the runtime type (int, bytes, TriggerList,
anything else). A `TriggerList` field is modelled by the bytes of its packed
representation (`pack_cb()`), which is all `pack_hdr` consumes of it; its
mutation mechanics are modelled separately (`TLState` below). -/
inductive Value where
  | vint (n : Nat)
  | vbytes (bs : List Nat)
  | vtrigger (packed : List Nat)
  | vother
  deriving DecidableEq

/-- Big-endian value of a byte list. -/
def beVal (bs : List Nat) : Nat := bs.foldl (fun a b => a * 256 + b) 0

/-- Big-endian encoding of `n` on `w` bytes. -/
def beBytes (w n : Nat) : List Nat :=
  match w with
  | 0 => []
  | w + 1 => beBytes w (n / 256) ++ [n % 256]

/-- `struct.unpack(fmt, hdr)` on a header slice of exactly `calcsize fmt`
bytes: one decoded value per token. -/
def structUnpackVals : List FmtTok → List Nat → List Value
  | [], _ => []
  | .num w :: rest, bs => .vint (beVal (bs.take w)) :: structUnpackVals rest (bs.drop w)
  | .str w :: rest, bs => .vbytes (bs.take w) :: structUnpackVals rest (bs.drop w)

/-- Python's `"Ns"` pack conversion: pad with zero bytes or truncate to
exactly `w` bytes (never an error). -/
def padTruncate (w : Nat) (bs : List Nat) : List Nat :=
  bs.take w ++ List.replicate (w - bs.length) 0

/-- `struct.pack(fmt, *vals)`: an integer too large for its width, a value of
the wrong runtime type, or a wrong argument count is a `struct.error`. -/
def structPackVals : List FmtTok → List Value → Except PyErr (List Nat)
  | [], [] => .ok []
  | .num w :: fr, .vint n :: vr =>
    if n < 256 ^ w then
      match structPackVals fr vr with
      | .ok rest => .ok (beBytes w n ++ rest)
      | .error e => .error e
    else .error .structError
  | .str w :: fr, .vbytes bs :: vr =>
    match structPackVals fr vr with
    | .ok rest => .ok (padTruncate w bs ++ rest)
    | .error e => .error e
  | _, _ => .error .structError

/-- Field-value lookup in the instance's attribute map (schema order). -/
def lookupF : List (String × Value) → String → Option Value
  | [], _ => none
  | (k, v) :: rest, n => if k = n then some v else lookupF rest n

/-- `object.__setattr__` on a known field name: replace its value. -/
def setF : List (String × Value) → String → Value → List (String × Value)
  | [], _, _ => []
  | (k, v) :: rest, n, v2 =>
    if k = n then (k, v2) :: rest else (k, v) :: setF rest n v2

/-- The runtime-type test `type(object.__getattribute__(self, k)) in [bytes, int]`
(pypacker.py:569). -/
def isIntOrBytes : Option Value → Bool
  | some (.vint _) => true
  | some (.vbytes _) => true
  | _ => false

/-- The assignment loop of `Packet.unpack` (pypacker.py:565-570): walk the
`(field, decoded-value)` pairs in order and assign each decoded value, but
only when the field currently holds an int or bytes value. -/
def unpackAssign : List (String × Value) → List (String × Value) → List (String × Value)
  | fields, [] => fields
  | fields, (k, v) :: rest =>
    if isIntOrBytes (lookupF fields k) then unpackAssign (setF fields k v) rest
    else unpackAssign fields rest

/-- A generic layer instance, see the section comment. -/
inductive GPacket where
  | mk (fields : List (String × Value)) (notNone : List String) (fmt : List FmtTok)
       (data : Option (List Nat)) (body : Option GPacket)
       (headerCached : Option (List Nat)) (packetChanged : Option Bool)

/-- Current field values (`self.<field>` for each schema field). -/
def GPacket.fields : GPacket → List (String × Value)
  | .mk f _ _ _ _ _ _ => f

/-- `self.__hdr_fields_not_none__`. -/
def GPacket.notNone : GPacket → List String
  | .mk _ nn _ _ _ _ _ => nn

/-- `self.__hdr_fmtstr__` as a token list. -/
def GPacket.fmt : GPacket → List FmtTok
  | .mk _ _ fm _ _ _ _ => fm

/-- `self.data`. -/
def GPacket.data : GPacket → Option (List Nat)
  | .mk _ _ _ d _ _ _ => d

/-- The nested body handler (`self.bodytypename` plus the handler attribute). -/
def GPacket.body : GPacket → Option GPacket
  | .mk _ _ _ _ b _ _ => b

/-- `self._header_cached`. -/
def GPacket.headerCached : GPacket → Option (List Nat)
  | .mk _ _ _ _ _ hc _ => hc

/-- `self.packet_changed`; `none` means the attribute was never assigned. -/
def GPacket.packetChanged : GPacket → Option Bool
  | .mk _ _ _ _ _ _ pc => pc

/-- `Packet.unpack(self, buf)` (pypacker.py:559-577):
`struct.unpack(self.__hdr_fmtstr__, buf[:self.__hdr_len__])` raises
`struct.error` exactly when the slice is shorter than the header length; on
success each not-None field currently holding an int or bytes value receives
its decoded value, `self._header_cached = buf[:self.__hdr_len__]`, and when no
body handler is attached `self.data = buf[self.__hdr_len__:]`.
`packet_changed` is untouched (all stores go through `object.__setattr__`). -/
def GPacket.unpack (p : GPacket) (buf : List Nat) : Except PyErr GPacket :=
  if buf.length < calcsize p.fmt then .error .structError
  else
    let hdr := buf.take (calcsize p.fmt)
    let fields2 := unpackAssign p.fields (p.notNone.zip (structUnpackVals p.fmt hdr))
    let data2 := match p.body with
      | none => some (buf.drop (calcsize p.fmt))
      | some _ => p.data
    .ok (.mk fields2 p.notNone p.fmt data2 p.body (some hdr) p.packetChanged)

/-- The buffer branch of `Packet.__init__` (pypacker.py:196-213), parametric
in the `unpack` implementation it invokes (subclasses may override `unpack`):
an empty buffer is rejected with `NeedData` up front; a `struct.error` from
`unpack` is converted to `NeedData` when the buffer is shorter than the header
length and to `UnpackError` otherwise; any other exception propagates. -/
def packetInitWith (unpackFn : List Nat → Except PyErr GPacket) (hdrLen : Nat)
    (buf : List Nat) : Except PyErr GPacket :=
  if buf.length = 0 then .error .needData
  else
    match unpackFn buf with
    | .ok p => .ok p
    | .error .structError =>
      if buf.length < hdrLen then .error .needData else .error .unpackError
    | .error e => .error e

/-- `Packet(buf)` for a protocol type without a custom `unpack`: the generic
`Packet.unpack` runs and leaves `__hdr_len__` unchanged. -/
def packetInitBuf (p0 : GPacket) (buf : List Nat) : Except PyErr GPacket :=
  packetInitWith p0.unpack (calcsize p0.fmt) buf

/-- The value-collection loop of `pack_hdr` (pypacker.py:507-531): int and
bytes values are used as is, a TriggerList contributes its packed bytes
(`val.pack_cb()`), any other value shape raises pypacker's `Error`
("Invalid value found, check headers!"). -/
def packFieldVals (fields : List (String × Value)) : List String → Except PyErr (List Value)
  | [] => .ok []
  | k :: ks =>
    match lookupF fields k with
    | some (.vint n) =>
      match packFieldVals fields ks with
      | .ok r => .ok (.vint n :: r)
      | .error e => .error e
    | some (.vbytes bs) =>
      match packFieldVals fields ks with
      | .ok r => .ok (.vbytes bs :: r)
      | .error e => .error e
    | some (.vtrigger packed) =>
      match packFieldVals fields ks with
      | .ok r => .ok (.vbytes packed :: r)
      | .error e => .error e
    | some .vother => .error .errorPy
    | none => .error .attributeError

/-- The uncached path of `pack_hdr` (pypacker.py:506-552): collect the
not-None field values and `struct.pack` them. The `except Error` handler
catches only pypacker's `Error`, logs, and falls off the end of the function,
returning Python `None` (`.ok none` here; the original `raise PackError` is
commented out at pypacker.py:548-552); a `struct.error` from `struct.pack`
propagates to the caller. The `self._header_cached` store on success is a
side effect no modelled claim depends on. -/
def packHdrFresh (p : GPacket) : Except PyErr (Option (List Nat)) :=
  match packFieldVals p.fields p.notNone with
  | .error .errorPy => .ok none
  | .error e => .error e
  | .ok vals =>
    match structPackVals p.fmt vals with
    | .ok bs => .ok (some bs)
    | .error e => .error e

/-- `Packet.pack_hdr` (pypacker.py:498-552): when `_header_cached` is set the
guard reads `self.packet_changed` (an `AttributeError` when that attribute was
never assigned); with `packet_changed` falsy the cached bytes are returned,
otherwise the header is re-packed. -/
def GPacket.pack_hdr (p : GPacket) : Except PyErr (Option (List Nat)) :=
  match p.headerCached with
  | some cached =>
    match p.packetChanged with
    | none => .error .attributeError
    | some c => if c then packHdrFresh p else .ok (some cached)
  | none => packHdrFresh p

/-- `Packet.bin` (pypacker.py:479-495): header bytes (a `None` header from the
swallowed pack error makes the `header_bin + ...` concatenation a
`TypeError`), then the raw data (asserted present) when no handler is
attached, else the recursive encoding of the handler (with `data` asserted
absent). The `packet_changed = False` store happens after `pack_hdr`
(pypacker.py:485-486) and is irrelevant to the returned bytes. -/
def GPacket.bin : GPacket → Except PyErr (List Nat)
  | .mk f nn fm d none hc pc =>
    match GPacket.pack_hdr (.mk f nn fm d none hc pc) with
    | .error e => .error e
    | .ok none => .error .typeError
    | .ok (some h) =>
      match d with
      | none => .error .assertionError
      | some bs => .ok (h ++ bs)
  | .mk f nn fm d (some b) hc pc =>
    match GPacket.pack_hdr (.mk f nn fm d (some b) hc pc) with
    | .error e => .error e
    | .ok none => .error .typeError
    | .ok (some h) =>
      match d with
      | some _ => .error .assertionError
      | none =>
        match GPacket.bin b with
        | .ok bodyBytes => .ok (h ++ bodyBytes)
        | .error e => .error e

/-! ### Concrete instances used as inputs for evaluation and witnesses -/

/-- A minimal protocol type: one 1-byte unsigned field `foo` with default 1
(as in the `Foo` example of the Packet docstring, pypacker.py:166-183),
metaclass initial state: `data = b""`, no handler, `_header_cached = None`,
`packet_changed` never assigned. -/
def demoPacket : GPacket :=
  .mk [("foo", .vint 1)] ["foo"] [.num 1] (some []) none none none

/-- `demoPacket` after `Packet(b"\x05")`: `foo = 5`, empty trailing data,
header cache primed, `packet_changed` still unset. -/
def demoUnpacked : GPacket :=
  .mk [("foo", .vint 5)] ["foo"] [.num 1] (some []) none (some [5]) none

/-- A two-byte protocol (fields `foo`, `bar`, one byte each). -/
def demoPacket2 : GPacket :=
  .mk [("foo", .vint 0), ("bar", .vint 0)] ["foo", "bar"] [.num 1, .num 1]
    (some []) none none none

/-- A packet whose field `foo` was set (via the keyword constructor's direct
`object.__setattr__`, pypacker.py:218-220) to a value that is neither int,
bytes nor TriggerList. -/
def badValuePacket : GPacket :=
  .mk [("foo", .vother)] ["foo"] [.num 1] (some []) none none none

/-- A packet whose int field `foo` holds 256, too wide for its 1-byte
format. -/
def wideValuePacket : GPacket :=
  .mk [("foo", .vint 256)] ["foo"] [.num 1] (some []) none none none

/-- A packet with an int field `a` and a TriggerList field `opts` (packed
bytes `[9]`, format `"1s"`). -/
def trigPacket : GPacket :=
  .mk [("a", .vint 0), ("opts", .vtrigger [9])] ["a", "opts"] [.num 1, .str 1]
    (some []) none none none

/-- `trigPacket` after `unpack(b"\x07\x08")`: `a` received the decoded 7, the
TriggerList field was left unchanged. -/
def trigUnpacked : GPacket :=
  .mk [("a", .vint 7), ("opts", .vtrigger [9])] ["a", "opts"] [.num 1, .str 1]
    (some []) none (some [7, 8]) none

/-- A 56-byte IP6-style buffer: 40-byte fixed header, then a destination
options sub-header (next type 60 is read from offset 40 before this one is
entered; its own first byte carries the following type) with indicator 0,
then a sub-header whose first byte names the terminal type TCP (6), indicator
0. The chain starting at type HOPOPTS (0) and offset 40 decodes exactly two
entries of 8 bytes each. -/
def demoChainBuf : List Nat :=
  List.replicate 40 0 ++ [60, 0, 0, 0, 0, 0, 0, 0] ++ [6, 0, 0, 0, 0, 0, 0, 0]

/-- A 50-byte IP6-style buffer whose chain reaches ESP: byte 6 (the `nxt`
field) is HOPOPTS (0); the sub-header at offset 40 declares next type 50
(ESP) in its first byte with indicator 0; two further bytes let the ESP step
read its length indicator before its sub-decoder raises. -/
def demoEspChainBuf : List Nat :=
  List.replicate 40 0 ++ [50, 0, 0, 0, 0, 0, 0, 0] ++ [0, 0]

/-! ### Layer lookup `Packet.__getitem__` (pypacker.py:294-305)

Only the stack shape matters here: a `PStack` is a packet tagged with its
lowercased class name and an optional body handler. After
`_set_bodyhandler(obj)` the handler is stored in an instance attribute named
`obj.__class__.__name__.lower()` (pypacker.py:468-471) and any previous
handler attribute was removed with `delattr` (pypacker.py:456-458), so the
only packet-valued attribute of a packet is its own immediate body handler
under its `bodytypename`. -/

/-- A stack of layers: the layer's lowercased type name and its body. -/
inductive PStack where
  | mk (ty : String) (body : Option PStack)

/-- The lowercased class name of the layer. -/
def PStack.ty : PStack → String
  | .mk t _ => t

/-- The immediate body handler, if any. -/
def PStack.body : PStack → Option PStack
  | .mk _ b => b

/-- `self.bodytypename`: the attribute name of the body handler. -/
def PStack.bodytypename (p : PStack) : Option String := p.body.map PStack.ty

/-- `getattr(p, name)` restricted to packet-valued attributes: only the body
handler, stored under its `bodytypename`, exists; any other name raises
`AttributeError`. -/
def pyGetattr (p : PStack) (name : String) : Except PyErr PStack :=
  match p.body with
  | some c => if c.ty = name then .ok c else .error .attributeError
  | none => .error .attributeError

/-- Number of layers in the stack. -/
def PStack.depth : PStack → Nat
  | .mk _ none => 1
  | .mk _ (some b) => 1 + b.depth

/-- The `while` loop of `Packet.__getitem__` (pypacker.py:297-305), totalised
with fuel: return the cursor once its type matches `k`; otherwise, when the
cursor has a body handler, advance with `getattr(self, p_instance.bodytypename)`
— on `self`, the top packet, exactly as in the source, not on the cursor —
else stop with `None` ("not found"). -/
def getitemLoop (self : PStack) (k : String) : PStack → Nat → Except PyErr (Option PStack)
  | _, 0 => .error .loopLimit
  | p, fuel + 1 =>
    if p.ty = k then .ok (some p)
    else
      match p.bodytypename with
      | some btn =>
        match pyGetattr self btn with
        | .ok nxt => getitemLoop self k nxt fuel
        | .error e => .error e
      | none => .ok none

/-- `self[k]` (pypacker.py:294-305). The fuel `depth + 1` exceeds the number
of iterations any run can perform, since each successful `getattr` on `self`
yields `self`'s immediate child. -/
def getitemCode (self : PStack) (k : String) : Except PyErr (Option PStack) :=
  getitemLoop self k self (self.depth + 1)

/-- A three-layer stack `ethernet / ip6 / tcp` built with `_set_bodyhandler`
(also what `__truediv__` produces, pypacker.py:307-325). -/
def stackTcp : PStack := .mk "tcp" none

/-- The middle layer of the demo stack. -/
def stackIp6 : PStack := .mk "ip6" (some stackTcp)

/-- The top layer of the demo stack. -/
def stackEth : PStack := .mk "ethernet" (some stackIp6)

/-! ### Body representation invariant (pypacker.py:238-272, 443-477)

The body-relevant state of one packet: `data` and `bodytypename` (the handler
attribute's presence coincides with `bodytypename` being set, see
`_set_bodyhandler`). The module states the intended invariant itself:
"the following assumption must be fullfilled: (handler=obj, data=None) OR
(handler=None, data=b'')" (pypacker.py:240). -/

/-- Body-relevant state of one packet. -/
structure BState where
  data : Option (List Nat)
  bodytypename : Option String
  deriving DecidableEq

/-- `Packet._set_bodyhandler(obj)` (pypacker.py:443-477): detaching
(`obj = None`) clears `bodytypename` and replaces an absent `data` with
`b""`; attaching stores the handler name and sets `data = None`. -/
def set_bodyhandler (s : BState) (obj : Option String) : BState :=
  match obj with
  | none =>
    { bodytypename := none, data := if s.data = none then some [] else s.data }
  | some n => { bodytypename := some n, data := none }

/-- The `data` branch of `Packet.__setattr__` (pypacker.py:258-272): setting
`data = None` with no handler attached raises `Error`; setting concrete bytes
while a handler is attached first detaches the handler via
`_set_bodyhandler(None)`; then the value is stored. -/
def setDataAttr (s : BState) (v : Option (List Nat)) : Except PyErr BState :=
  if v = none ∧ s.bodytypename = none then .error .errorPy
  else
    let s1 := if v ≠ none ∧ s.bodytypename ≠ none then set_bodyhandler s none else s
    .ok { s1 with data := v }

/-- The body effect of `Packet.unpack` (pypacker.py:574-575): trailing bytes
become `data` only when no handler is attached. -/
def unpackBodyData (s : BState) (rest : List Nat) : BState :=
  match s.bodytypename with
  | none => { s with data := some rest }
  | some _ => s

/-- The operations that can touch a packet's body representation: setting
`data` through `__setattr__`, attaching/detaching a handler (also the effect
of `/`-concatenation, which calls `_set_bodyhandler` on the deepest layer,
pypacker.py:307-325), and decoding a buffer. Construction from field values
assigns header fields only and leaves the body state at its metaclass
initial value. -/
inductive BOp where
  | opSetData (v : Option (List Nat))
  | opSetHandler (h : Option String)
  | opUnpack (rest : List Nat)

/-- Apply one body operation. -/
def applyBOp (s : BState) : BOp → Except PyErr BState
  | .opSetData v => setDataAttr s v
  | .opSetHandler h => .ok (set_bodyhandler s h)
  | .opUnpack rest => .ok (unpackBodyData s rest)

/-- The metaclass initial body state: `data = b""`, no handler
(pypacker.py:66-68). -/
def initBState : BState := { data := some [], bodytypename := none }

/-- Body states reachable by any sequence of successful operations from the
initial state. -/
inductive ReachableB : BState → Prop where
  | init : ReachableB initBState
  | step : ∀ {s s2 : BState} (op : BOp), ReachableB s → applyBOp s op = .ok s2 → ReachableB s2

/-- The claimed invariant: exactly one body representation — raw bytes with no
handler, or a handler with `data = None`. -/
def InvB (s : BState) : Prop :=
  (s.data ≠ none ∧ s.bodytypename = none) ∨ (s.data = none ∧ s.bodytypename ≠ none)

/-! ### TriggerList mutation mechanics (pypacker.py:654-719)

`TriggerList.__iadd__ / __setitem__ / __delitem__` first apply the plain list
mutation, then run `__handle_mod(val)` where `val` is, respectively, the
appended iterable, the new element, or the index. `__handle_mod` subscribes a
`Packet` value by calling `val.add_change_listener_cb(...)` (pypacker.py:687)
— but class `Packet` only defines `add_change_listener` (pypacker.py:274) —
and then runs `__format`, which drops the cached packed bytes, sets the
owner's `packet_changed` and invokes the owner's format callback, swallowing
every exception of that inner block (pypacker.py:698-709). -/

/-- An element of a TriggerList: a nested `Packet` (tagged by an id; its
contents are irrelevant to the trigger mechanics) or an opaque key/value
tuple. -/
inductive TElem where
  | pktElem (tag : Nat)
  | tupElem (kv : List Nat)
  deriving DecidableEq

/-- What `__handle_mod` receives from each mutator: the new element from
`__setitem__`, the appended iterable from `__iadd__`, the index from
`__delitem__`. -/
inductive ModArg where
  | argElem (e : TElem)
  | argList (es : List TElem)
  | argIndex (i : Nat)
  deriving DecidableEq

/-- The observable state of a TriggerList and of its owner's dirty tracking:
the elements, the cached packed bytes (`__cached_result`), whether
`self.packet` and `self.format_cb` were attached (done by
`_add_headerfield`, pypacker.py:364-366), the owner's `packet_changed` flag,
whether the owner's format was re-derived, and which packets were registered
as change-listener sources. -/
structure TLState where
  items : List TElem
  cachedResult : Option (List Nat)
  hasPacket : Bool
  hasFormatCb : Bool
  ownerChanged : Bool
  ownerFmtUpdated : Bool
  subscribed : List Nat
  deriving DecidableEq

/-- The method names defined by class `Packet` (pypacker.py:189-651):
`add_change_listener` is among them, `add_change_listener_cb` is not. -/
def packetMethodNames : List String :=
  ["__init__", "__len__", "__setattr__", "add_change_listener",
   "remove_change_listener", "__getitem__", "__truediv__", "__repr__",
   "callback_impl", "is_related", "_add_headerfield", "get_formatstr",
   "_set_bodyhandler", "bin", "pack_hdr", "unpack", "load_handler"]

/-- `TriggerList.__format` (pypacker.py:698-709): invalidate the cached packed
bytes, then inside a bare `try/except` set the owner's `packet_changed` and
call the owner's format callback; with no owner attached the first statement
raises and is swallowed, with no callback the call raises and is swallowed
after `packet_changed` was already set. -/
def formatStep (tl : TLState) : TLState :=
  let tl1 := { tl with cachedResult := none }
  if tl1.hasPacket then
    let tl2 := { tl1 with ownerChanged := true }
    if tl2.hasFormatCb then { tl2 with ownerFmtUpdated := true } else tl2
  else tl1

/-- `TriggerList.__handle_mod(val)` (pypacker.py:683-692): for a `Packet`
value, look up the method `add_change_listener_cb` on it — an
`AttributeError` when the name is not defined on `Packet` — subscribe, and
fall through to `__format`; any non-Packet value goes straight to
`__format`. -/
def handleMod (tl : TLState) (a : ModArg) : Except PyErr TLState :=
  match a with
  | .argElem (.pktElem t) =>
    if "add_change_listener_cb" ∈ packetMethodNames then
      .ok (formatStep { tl with subscribed := t :: tl.subscribed })
    else .error .attributeError
  | _ => .ok (formatStep tl)

/-- `TriggerList.__setitem__(i, v)` (pypacker.py:677-681): store the element,
then `__handle_mod(v)`. An exception from `__handle_mod` propagates, leaving
the already-mutated list behind: the result pairs the final state with the
escaped exception, if any. -/
def tlSetitem (tl : TLState) (i : Nat) (v : TElem) : TLState × Option PyErr :=
  let tl1 := { tl with items := tl.items.set i v }
  match handleMod tl1 (.argElem v) with
  | .ok t2 => (t2, none)
  | .error e => (tl1, some e)

/-- `TriggerList.__iadd__(k)` (pypacker.py:668-671): extend with the iterable,
then `__handle_mod(k)` — with the iterable itself, not its elements. -/
def tlIadd (tl : TLState) (ks : List TElem) : TLState × Option PyErr :=
  let tl1 := { tl with items := tl.items ++ ks }
  match handleMod tl1 (.argList ks) with
  | .ok t2 => (t2, none)
  | .error e => (tl1, some e)

/-- `TriggerList.__delitem__(k)` (pypacker.py:673-675): delete, then
`__handle_mod(k)` with the index. -/
def tlDelitem (tl : TLState) (i : Nat) : TLState × Option PyErr :=
  let tl1 := { tl with items := tl.items.eraseIdx i }
  match handleMod tl1 (.argIndex i) with
  | .ok t2 => (t2, none)
  | .error e => (tl1, some e)

/-- A TriggerList attached to an owner (as `_add_headerfield` leaves it), with
one tuple element and valid cached packed bytes, owner currently clean. -/
def tlDemo : TLState :=
  { items := [.tupElem [1]], cachedResult := some [1, 2], hasPacket := true,
    hasFormatCb := true, ownerChanged := false, ownerFmtUpdated := false,
    subscribed := [] }

/-! ## Theorems -/

/-- Splitting the word decomposition at an even boundary: when the first
buffer has even length, the 16-bit words of the concatenation are the words
of the parts. -/
theorem cksumWords_append : ∀ (b1 b2 : List Nat), b1.length % 2 = 0 →
    cksumWords (b1 ++ b2) = cksumWords b1 ++ cksumWords b2
  | [], _, _ => rfl
  | [b], _, h => by simp at h
  | b0 :: b1 :: rest, b2, h => by
    have h2 : rest.length % 2 = 0 := by
      simp only [List.length_cons] at h
      omega
    show word16 b0 b1 :: cksumWords (rest ++ b2)
        = (word16 b0 b1 :: cksumWords rest) ++ cksumWords b2
    rw [cksumWords_append rest b2 h2]
    rfl

/-- C5 counterexample: for the odd-length first part `b1 = b"\x01"` and
`b2 = b"\x02"`, accumulating the two parts separately pads `b1`'s trailing
byte into its own 16-bit word, so the two sides of the claimed equation
differ. -/
theorem C5_counterexample :
    in_cksum_done (in_cksum_add (in_cksum_add 0 [1]) [2])
      ≠ in_cksum_done (in_cksum_add 0 ([1] ++ [2])) := by decide

/-- C5 (amended): accumulating the running internet-checksum sum over `b1`
and then over `b2` and folding once equals accumulating over the
concatenation `b1 ++ b2` and folding once, whenever `b1` has even length. -/
theorem C5_concat_even (b1 b2 : List Nat) (h : b1.length % 2 = 0) :
    in_cksum_done (in_cksum_add (in_cksum_add 0 b1) b2)
      = in_cksum_done (in_cksum_add 0 (b1 ++ b2)) := by
  unfold in_cksum_add
  rw [cksumWords_append b1 b2 h, List.sum_append, Nat.add_assoc]

/-- Witness for C5 at the concrete even-length `b1 = [1, 2]`, `b2 = [3]`. -/
theorem C5_concat_even_witness :
    in_cksum_done (in_cksum_add (in_cksum_add 0 [1, 2]) [3])
      = in_cksum_done (in_cksum_add 0 ([1, 2] ++ [3])) :=
  C5_concat_even [1, 2] [3] (by decide)

/-- C1 evaluation at a failing input: `Packet(b"\x05")` for the one-field demo
protocol is accepted (fields decoded, header cache primed, trailing data
empty), but `bin()` on the unmutated result does not return the input buffer —
it raises `AttributeError`, because `pack_hdr`'s cache guard reads
`self.packet_changed` (pypacker.py:502), an attribute that no code path of a
buffer-built packet ever initialises (the metaclass initialisation is
commented out, pypacker.py:73). The spec's round-trip identity
`encode(decode(b)) == b` therefore fails for every buffer-constructed
layer. -/
theorem C1_roundtrip_eval :
    packetInitBuf demoPacket [5] = .ok demoUnpacked
      ∧ GPacket.bin demoUnpacked = .error .attributeError := ⟨rfl, rfl⟩

/-- C3 evaluation: no `PackError` ever reaches the caller. A field value that
is not int/bytes/TriggerList makes `pack_hdr` raise pypacker's `Error`
internally, catch it, log and return `None` (a placeholder; `bin()` then dies
with `TypeError` on `None + data`), and an int that outgrew its 1-byte format
escapes as a raw `struct.error`. The `raise PackError` of the original code
is commented out (pypacker.py:548-552) and the `PackError` class is never
raised in src. -/
theorem C3_pack_error_eval :
    badValuePacket.pack_hdr = .ok none
      ∧ badValuePacket.bin = .error .typeError
      ∧ wideValuePacket.pack_hdr = .error .structError := ⟨rfl, rfl, rfl⟩

/-- C7 evaluation: on the three-layer stack `ethernet/ip6/tcp`, looking up the
third layer raises `AttributeError` instead of returning the instance: the
loop advances with `getattr(self, p_instance.bodytypename)` on the top packet
instead of the cursor (pypacker.py:301), and the top packet has no `tcp`
attribute. Depth-two lookups still work (second and third conjuncts), which
is why the slip only shows on stacks deeper than two. -/
theorem C7_getitem_eval :
    getitemCode stackEth "tcp" = .error .attributeError
      ∧ getitemCode stackEth "ip6" = .ok (some stackIp6)
      ∧ getitemCode stackIp6 "tcp" = .ok (some stackTcp) := ⟨rfl, rfl, rfl⟩

/-- C9 evaluation: storing a `Packet` element in an owner-attached
TriggerList via `__setitem__` leaves the element stored but raises
`AttributeError` (`Packet` has no `add_change_listener_cb`, pypacker.py:687
versus 274) before `__format` runs: the cached packed bytes survive, the
owner is not marked changed, and the packet is not subscribed. Appending via
`+=` hands the appended iterable — not the element — to `__handle_mod`, so a
`Packet` element is silently never subscribed there either (no error, still
no subscription). -/
theorem C9_trigger_eval :
    tlSetitem tlDemo 0 (.pktElem 7)
        = ({ tlDemo with items := [.pktElem 7] }, some .attributeError)
      ∧ (tlIadd tlDemo [.pktElem 7]).2 = none
      ∧ (tlIadd tlDemo [.pktElem 7]).1.subscribed = []
      ∧ (tlIadd tlDemo [.pktElem 7]).1.ownerChanged = true
      ∧ (tlIadd tlDemo [.pktElem 7]).1.cachedResult = none := by
  refine ⟨?_, rfl, rfl, rfl, rfl⟩
  decide

/-- C2: for every protocol schema, a buffer shorter than the fixed header
length is rejected with `NeedData`; any `struct.error` escaping `unpack` on a
nonempty buffer that is not shorter is rejected with `UnpackError`; and
construction succeeds only when `unpack` succeeded (never silently on a
failing buffer). -/
theorem C2_init_errors :
    (∀ (p0 : GPacket) (buf : List Nat), buf.length < calcsize p0.fmt →
        packetInitBuf p0 buf = .error .needData)
      ∧ (∀ (uf : List Nat → Except PyErr GPacket) (hl : Nat) (buf : List Nat),
          0 < buf.length → uf buf = .error .structError → ¬ buf.length < hl →
          packetInitWith uf hl buf = .error .unpackError)
      ∧ (∀ (uf : List Nat → Except PyErr GPacket) (hl : Nat) (buf : List Nat)
          (p : GPacket), packetInitWith uf hl buf = .ok p → uf buf = .ok p) := by
  refine ⟨?_, ?_, ?_⟩
  · intro p0 buf hshort
    unfold packetInitBuf packetInitWith
    by_cases hz : buf.length = 0
    · simp [hz]
    · have hunp : p0.unpack buf = .error .structError := by
        unfold GPacket.unpack
        simp [hshort]
      simp [hz, hunp, hshort]
  · intro uf hl buf hpos huf hlong
    unfold packetInitWith
    have hz : ¬ buf.length = 0 := by omega
    simp [hz, huf, hlong]
  · intro uf hl buf p h
    unfold packetInitWith at h
    by_cases hz : buf.length = 0
    · simp [hz] at h
    · simp only [hz, if_false] at h
      cases hcase : uf buf with
      | ok q => rw [hcase] at h; exact h
      | error e =>
        rw [hcase] at h
        cases e <;> simp at h
        split at h <;> simp at h

/-- Witness for C2 at concrete inputs: the two-field demo protocol rejects the
one-byte buffer `b"\x01"` with `NeedData`; an `unpack` that raises
`struct.error` on the nonempty buffer `b"\x01"` with header length 0 yields
`UnpackError`; and the accepted construction of `demoPacket` from `b"\x05"`
really ran `unpack`. -/
theorem C2_init_errors_witness :
    packetInitBuf demoPacket2 [1] = .error .needData
      ∧ packetInitWith (fun _ => .error .structError) 0 [1] = .error .unpackError
      ∧ GPacket.unpack demoPacket [5] = .ok demoUnpacked :=
  ⟨C2_init_errors.1 demoPacket2 [1] (by decide),
   C2_init_errors.2.1 (fun _ => .error .structError) 0 [1] (by decide) rfl (by decide),
   C2_init_errors.2.2 demoPacket.unpack 1 [5] demoUnpacked rfl⟩

/-- Setting one field leaves every other field's value unchanged. -/
theorem lookupF_setF_ne (fields : List (String × Value)) (k1 k : String)
    (v2 : Value) (h : k ≠ k1) : lookupF (setF fields k1 v2) k = lookupF fields k := by
  induction fields with
  | nil => rfl
  | cons kv rest ih =>
    obtain ⟨k0, v0⟩ := kv
    by_cases h0 : k0 = k1
    · subst h0
      have hk : ¬ k0 = k := fun he => h (he ▸ rfl)
      simp [setF, lookupF, hk]
    · by_cases hk : k0 = k
      · subst hk
        simp [setF, lookupF, h0]
      · simp [setF, lookupF, h0, hk, ih]

/-- The assignment loop of `Packet.unpack` never touches a field whose
current value is not an int or a byte string. -/
theorem unpackAssign_frame (pairs : List (String × Value)) :
    ∀ (fields : List (String × Value)) (k : String) (v : Value),
      lookupF fields k = some v → (∀ n, v ≠ .vint n) → (∀ bs, v ≠ .vbytes bs) →
      lookupF (unpackAssign fields pairs) k = some v := by
  induction pairs with
  | nil => intro fields k v h _ _; exact h
  | cons kv rest ih =>
    intro fields k v h hn hb
    obtain ⟨k1, v1⟩ := kv
    by_cases h1 : isIntOrBytes (lookupF fields k1) = true
    · have hne : k ≠ k1 := by
        intro he
        subst he
        rw [h] at h1
        cases v with
        | vint n => exact hn n rfl
        | vbytes bs => exact hb bs rfl
        | vtrigger packed => simp [isIntOrBytes] at h1
        | vother => simp [isIntOrBytes] at h1
      have h2 : lookupF (setF fields k1 v1) k = some v := by
        rw [lookupF_setF_ne fields k1 k v1 hne]; exact h
      simp only [unpackAssign, h1, if_true]
      exact ih (setF fields k1 v1) k v h2 hn hb
    · simp only [unpackAssign, h1, if_false]
      exact ih fields k v h hn hb

/-- C10: generic decoding (`Packet.unpack`) assigns decoded values only to
header fields currently holding an int or a byte string — any field holding
any other value shape (in particular a TriggerList) keeps its exact value —
and refreshes the header cache with the header slice and, when no body
handler is attached, `data` with the trailing bytes (with a handler attached,
`data` is untouched). -/
theorem C10_unpack_frame (p : GPacket) (buf : List Nat) (p2 : GPacket)
    (h : p.unpack buf = .ok p2) :
    (∀ (k : String) (v : Value), lookupF p.fields k = some v →
        (∀ n, v ≠ .vint n) → (∀ bs, v ≠ .vbytes bs) →
        lookupF p2.fields k = some v)
      ∧ p2.headerCached = some (buf.take (calcsize p.fmt))
      ∧ (p.body.isNone → p2.data = some (buf.drop (calcsize p.fmt)))
      ∧ (¬ p.body.isNone → p2.data = p.data) := by
  unfold GPacket.unpack at h
  split at h
  · cases h
  · replace h := (Except.ok.injEq _ _).mp h
    subst h
    refine ⟨?_, rfl, ?_, ?_⟩
    · intro k v hv hn hb
      exact unpackAssign_frame _ p.fields k v hv hn hb
    · intro hnone
      cases hbody : p.body with
      | none => simp [GPacket.data, hbody]
      | some b => rw [hbody] at hnone; cases hnone
    · intro hsome
      cases hbody : p.body with
      | none => rw [hbody] at hsome; exact absurd rfl hsome
      | some b => simp [GPacket.data, hbody]

/-- Witness for C10 at the concrete `trigPacket` and buffer `b"\x07\x08"`:
the TriggerList-valued field `opts` survives the decode unchanged while the
header cache is refreshed with the two header bytes. -/
theorem C10_unpack_frame_witness :
    lookupF trigUnpacked.fields "opts" = some (Value.vtrigger [9])
      ∧ trigUnpacked.headerCached = some [7, 8] := by
  have h := C10_unpack_frame trigPacket [7, 8] trigUnpacked rfl
  exact ⟨h.1 "opts" (Value.vtrigger [9]) rfl
      (fun n hn => Value.noConfusion hn) (fun bs hb => Value.noConfusion hb),
    h.2.1⟩

/-- C8: every body state reachable by any sequence of successful operations
(construction, setting `data`, attaching/detaching a handler, concatenation,
decoding) carries exactly one body representation — raw bytes with no nested
handler, or a nested handler with `data = None` — and setting `data` to
`None` while no handler is attached is rejected with pypacker's `Error`. -/
theorem C8_body_invariant :
    (∀ s : BState, ReachableB s → InvB s)
      ∧ (∀ s : BState, s.bodytypename = none →
          setDataAttr s none = .error .errorPy) := by
  constructor
  · intro s hs
    induction hs with
    | init => left; simp [initBState, InvB]
    | @step s s2 op hr heq ih =>
      cases op with
      | opSetData v =>
        simp only [applyBOp] at heq
        unfold setDataAttr at heq
        split at heq
        · cases heq
        next hcond =>
          replace heq := (Except.ok.injEq _ _).mp heq
          subst heq
          by_cases hv : v = none
          · subst hv
            have hbtn : s.bodytypename ≠ none := fun hb => hcond ⟨rfl, hb⟩
            have hif : ¬ ((none : Option (List Nat)) ≠ none ∧ s.bodytypename ≠ none) := by
              simp
            rw [if_neg hif]
            right
            exact ⟨rfl, hbtn⟩
          · by_cases hbtn : s.bodytypename = none
            · have hif : ¬ (v ≠ none ∧ s.bodytypename ≠ none) :=
                fun hand => hand.2 hbtn
              rw [if_neg hif]
              left
              exact ⟨hv, hbtn⟩
            · rw [if_pos ⟨hv, hbtn⟩]
              left
              exact ⟨hv, rfl⟩
      | opSetHandler h =>
        simp only [applyBOp] at heq
        replace heq := (Except.ok.injEq _ _).mp heq
        subst heq
        cases h with
        | none =>
          left
          refine ⟨?_, rfl⟩
          by_cases hd : s.data = none <;> simp [set_bodyhandler, hd]
        | some n => right; exact ⟨rfl, by simp [set_bodyhandler]⟩
      | opUnpack rest =>
        simp only [applyBOp] at heq
        replace heq := (Except.ok.injEq _ _).mp heq
        subst heq
        unfold unpackBodyData
        cases hbtn : s.bodytypename with
        | none =>
          left
          refine ⟨by simp, ?_⟩
          rfl
        | some n => exact ih
  · intro s hbtn
    unfold setDataAttr
    simp [hbtn]

/-- Witness for C8: the initial state (construction from field values,
`data = b""`, no handler) satisfies the invariant, and on it setting `data`
to `None` is rejected. -/
theorem C8_body_invariant_witness :
    InvB initBState ∧ setDataAttr initBState none = .error .errorPy :=
  ⟨C8_body_invariant.1 initBState ReachableB.init,
   C8_body_invariant.2 initBState rfl⟩

/-- C4: whenever the extension-chain loop returns, every sub-header it
consumed occupies exactly `8 + indicator * 8` bytes, where `indicator` is the
length-indicator byte read at the sub-header's offset plus one — so an
indicator of 0 consumes exactly 8 bytes, never 0, and every entry's length is
at least 8 — and the entries tile the buffer contiguously from the starting
offset: every iteration strictly advances the offset by the entry's length. -/
theorem C4_chain_lengths :
    ∀ (fuel : Nat) (buf : List Nat) (t off : Nat) (entries : List ExtEntry)
      (tEnd offEnd : Nat),
      chainParseF fuel buf t off = .ok (entries, tEnd, offEnd) →
      (∀ e ∈ entries, ∃ ind, buf[e.off + 1]? = some ind
          ∧ e.len = 8 + ind * 8 ∧ 8 ≤ e.len ∧ (ind = 0 → e.len = 8))
        ∧ ChainedOffsets off entries offEnd := by
  intro fuel
  induction fuel with
  | zero =>
    intro buf t off entries tEnd offEnd h
    cases h
  | succ n ih =>
    intro buf t off entries tEnd offEnd h
    simp only [chainParseF] at h
    split at h
    · -- t ∈ ext_hdrs: one loop iteration happened
      split at h
      · exact Except.noConfusion h
      · rename_i ind hind
        split at h
        · exact Except.noConfusion h
        · split at h
          · exact Except.noConfusion h
          · rename_i t2 ht2
            split at h
            · exact Except.noConfusion h
            · rename_i rest tEnd2 offEnd2 hrec
              replace h := (Except.ok.injEq _ _).mp h
              rw [Prod.mk.injEq, Prod.mk.injEq] at h
              obtain ⟨hent, htEnd, hoffEnd⟩ := h
              subst hent
              subst hoffEnd
              obtain ⟨ihAll, ihChain⟩ :=
                ih buf t2 (off + (8 + ind * 8)) rest tEnd2 offEnd2 hrec
              constructor
              · intro e he
                rcases List.mem_cons.mp he with rfl | hmem2
                · refine ⟨ind, hind, rfl, ?_, ?_⟩
                  · show 8 ≤ 8 + ind * 8
                    omega
                  · intro h0
                    show 8 + ind * 8 = 8
                    omega
                · exact ihAll e hmem2
              · exact ChainedOffsets.cons off _ rest offEnd2 rfl ihChain
    · -- t ∉ ext_hdrs: the loop body never ran
      replace h := (Except.ok.injEq _ _).mp h
      rw [Prod.mk.injEq, Prod.mk.injEq] at h
      obtain ⟨hent, htEnd, hoffEnd⟩ := h
      subst hent
      subst hoffEnd
      exact ⟨fun e he => absurd he (List.not_mem_nil e), ChainedOffsets.nil off⟩

/-- Witness for C4: on the concrete 56-byte buffer the chain starting at
type HOPOPTS and offset 40 decodes exactly two sub-headers, both with
indicator byte 0 and hence exactly 8 bytes each, tiling offsets 40-56, with
terminal type TCP (6). -/
theorem C4_chain_lengths_witness :
    (∃ ind, demoChainBuf[(40 : Nat) + 1]? = some ind
        ∧ (8 : Nat) = 8 + ind * 8 ∧ (8 : Nat) ≤ 8 ∧ (ind = 0 → (8 : Nat) = 8))
      ∧ ChainedOffsets 40 [⟨0, 40, 8⟩, ⟨60, 48, 8⟩] 56 := by
  have h := C4_chain_lengths (demoChainBuf.length + 1) demoChainBuf 0 40
    [⟨0, 40, 8⟩, ⟨60, 48, 8⟩] 6 56 rfl
  exact ⟨h.1 ⟨0, 40, 8⟩ (by simp), h.2⟩

/-- A successful optional index read implies the index is in bounds. -/
theorem getElem?_some_lt : ∀ (l : List Nat) (i a : Nat), l[i]? = some a → i < l.length := by
  intro l
  induction l with
  | nil => intro i a h; cases h
  | cons x xs ih =>
    intro i a h
    cases i with
    | zero => simp
    | succ j =>
      have hj : xs[j]? = some a := by simpa using h
      have := ih j a hj
      simpa using Nat.succ_lt_succ this

/-- The ESP sub-decoder fails on any nonempty slice. -/
theorem decodeExt_esp (slice : List Nat) (h : ¬ slice.length = 0) :
    decodeExt IP_PROTO_ESP slice = .error .notImplementedError := by
  unfold decodeExt
  rw [if_neg h, if_pos rfl]

/-- C6: a chain step whose current type code is ESP — registry-known but with
an intentionally unimplemented sub-decoder — fails with `NotImplementedError`
(the spec's `UnsupportedExtension`) as soon as its length indicator is
readable, and any failed IP6 dissect applies no chain entries at all to
`self.opts` (in particular none beyond the last successfully decoded
sub-header). -/
theorem C6_esp_unsupported :
    (∀ (fuel : Nat) (buf : List Nat) (off ind : Nat), buf[off + 1]? = some ind →
        chainParseF (fuel + 1) buf IP_PROTO_ESP off = .error .notImplementedError)
      ∧ (∀ (buf : List Nat) (e : PyErr), ip6Dissect buf = .error e →
          ip6OptsAfter buf = []) := by
  constructor
  · intro fuel buf off ind hind
    have hlt : off + 1 < buf.length := getElem?_some_lt buf (off + 1) ind hind
    have hslice : ¬ ((buf.drop off).take (8 + ind * 8)).length = 0 := by
      simp only [List.length_take, List.length_drop]
      omega
    simp only [chainParseF]
    rw [if_pos (by decide : IP_PROTO_ESP ∈ ext_hdrs), hind]
    split
    · rename_i hcontra
      cases hcontra
    · rename_i ind2 hsome
      replace hsome := (Option.some.injEq _ _).mp hsome
      subst hsome
      rw [decodeExt_esp _ hslice]
  · intro buf e h
    unfold ip6OptsAfter
    rw [h]

/-- Witness for C6: on the concrete 50-byte buffer whose first sub-header
names ESP as its next type, the ESP step fails with `NotImplementedError`,
the whole dissect fails, and no chain entries are applied. -/
theorem C6_esp_unsupported_witness :
    chainParseF (demoEspChainBuf.length + 1) demoEspChainBuf IP_PROTO_ESP 48
        = .error .notImplementedError
      ∧ ip6OptsAfter demoEspChainBuf = [] :=
  ⟨C6_esp_unsupported.1 demoEspChainBuf.length demoEspChainBuf 48 0 rfl,
   C6_esp_unsupported.2 demoEspChainBuf .notImplementedError rfl⟩
